import Mathlib

/-!
Shallow embedding of the FlappyBirdGame component
(src/flazzybird/src/components/FlappyBirdGame.tsx).

JavaScript numbers are modelled by `ℚ` (all arithmetic the game performs on
positions and velocities is addition, subtraction, multiplication and
comparison of decimal literals, which ℚ models exactly); particle life
counters only ever see integer arithmetic and are modelled by `ℤ`; scores
are `ℤ`.  `Math.random()` values in `[0,1)` are passed in explicitly as
parameters.  React state updates (`setScore`, `setGameState`,
`setHighScore`) become ordinary functional updates of a `GameModel` record;
note that inside one `gameLoop` invocation the variable `score` read by the
high-score check is the value captured by the closure at the start of the
tick, while `setScore(prev => prev + 1)` is a functional update applied to
the underlying state — the embedding keeps both, exactly as the code does.
-/

namespace Flazzy

/-- `CANVAS_WIDTH` constant (line 25). -/
def CANVAS_WIDTH : ℚ := 800

/-- `CANVAS_HEIGHT` constant (line 26). -/
def CANVAS_HEIGHT : ℚ := 600

/-- `BIRD_SIZE` constant (line 27). -/
def BIRD_SIZE : ℚ := 30

/-- `PIPE_WIDTH` constant (line 28). -/
def PIPE_WIDTH : ℚ := 80

/-- `PIPE_GAP` constant (line 29). -/
def PIPE_GAP : ℚ := 200

/-- `GRAVITY` constant 0.6 (line 30). -/
def GRAVITY : ℚ := 6/10

/-- `JUMP_FORCE` constant (line 31). -/
def JUMP_FORCE : ℚ := -12

/-- `PIPE_SPEED` constant (line 32). -/
def PIPE_SPEED : ℚ := 3

/-- The `Bird` interface (lines 3-8). -/
structure Bird where
  x : ℚ
  y : ℚ
  velocity : ℚ
  rotation : ℚ
deriving DecidableEq

/-- The `Pipe` interface (lines 10-15): `topHeight` is the gap's top edge,
`bottomY` the gap's bottom edge, `passed` the scoring flag. -/
structure Pipe where
  x : ℚ
  topHeight : ℚ
  bottomY : ℚ
  passed : Bool
deriving DecidableEq

/-- The `Particle` interface (lines 17-23), velocity flattened to `vx`/`vy`. -/
structure Particle where
  x : ℚ
  y : ℚ
  vx : ℚ
  vy : ℚ
  life : ℤ
  maxLife : ℤ
deriving DecidableEq

/-- The `gameState` enumeration `'menu' | 'playing' | 'gameOver'` (line 37). -/
inductive GameState where
  | menu
  | playing
  | gameOver
deriving DecidableEq

/-- The whole mutable state of the component: the React state hooks
(`gameState`, `score`, `highScore`, lines 37-42) plus `gameStateRef.current`
(lines 44-52). -/
structure GameModel where
  gameState : GameState
  score : ℤ
  highScore : ℤ
  bird : Bird
  pipes : List Pipe
  particles : List Particle
deriving DecidableEq

/-- The initial bird `{ x: 150, y: CANVAS_HEIGHT / 2, velocity: 0, rotation: 0 }`
(lines 49 and 56). -/
def initialBird : Bird :=
  { x := 150, y := CANVAS_HEIGHT / 2, velocity := 0, rotation := 0 }

/-- `resetGame` (lines 54-61): resets `gameStateRef.current` and calls
`setScore(0)`.  It does not touch `gameState` or `highScore`. -/
def resetGame (m : GameModel) : GameModel :=
  { m with bird := initialBird, pipes := [], particles := [], score := 0 }

/-- One particle pushed by `addParticles` (lines 65-74); `r` is the pair of
`Math.random()` draws used for its velocity. -/
def mkParticle (x y : ℚ) (r : ℚ × ℚ) : Particle :=
  { x := x, y := y,
    vx := (r.1 - 1/2) * 8,
    vy := (r.2 - 1/2) * 8 - 2,
    life := 30, maxLife := 30 }

/-- `addParticles` (lines 63-76): the list of `count` particles appended to
the particle sequence; `rnd i` supplies the two random draws of iteration `i`. -/
def addParticles (x y : ℚ) (count : ℕ) (rnd : ℕ → ℚ × ℚ) : List Particle :=
  (List.range count).map fun i => mkParticle x y (rnd i)

/-- `generatePipe` (lines 78-89); `r` is the `Math.random()` draw in `[0,1)`. -/
def generatePipe (r : ℚ) : Pipe :=
  let minHeight : ℚ := 50
  let maxHeight : ℚ := CANVAS_HEIGHT - PIPE_GAP - minHeight
  let topHeight : ℚ := r * (maxHeight - minHeight) + minHeight
  { x := CANVAS_WIDTH, topHeight := topHeight,
    bottomY := topHeight + PIPE_GAP, passed := false }

/-- `checkCollision` (lines 91-114): ground test, then ceiling test, then for
each pipe the horizontal-overlap test guarding the vertical-breach test. -/
def checkCollision (bird : Bird) (pipes : List Pipe) : Bool :=
  if bird.y + BIRD_SIZE / 2 ≥ CANVAS_HEIGHT - 50 then true
  else if bird.y - BIRD_SIZE / 2 ≤ 0 then true
  else pipes.any fun pipe =>
    decide (bird.x + BIRD_SIZE / 2 > pipe.x ∧
      bird.x - BIRD_SIZE / 2 < pipe.x + PIPE_WIDTH ∧
      (bird.y - BIRD_SIZE / 2 < pipe.topHeight ∨
       bird.y + BIRD_SIZE / 2 > pipe.bottomY))

/-- `jump` (lines 116-131); `rnd` supplies the random draws of the 5-particle
burst in the `'playing'` branch. -/
def jump (m : GameModel) (rnd : ℕ → ℚ × ℚ) : GameModel :=
  match m.gameState with
  | GameState.menu => resetGame { m with gameState := GameState.playing }
  | GameState.playing =>
      { m with
        bird := { m.bird with velocity := JUMP_FORCE },
        particles := m.particles ++
          addParticles (m.bird.x - BIRD_SIZE / 2) (m.bird.y + BIRD_SIZE / 2) 5 rnd }
  | GameState.gameOver => resetGame { m with gameState := GameState.playing }

/-- Bird integration in `gameLoop` (lines 144-146): gravity, position,
clamped rotation. -/
def integrateBird (b : Bird) : Bird :=
  let v := b.velocity + GRAVITY
  { b with velocity := v, y := b.y + v, rotation := min (max (v * 3) (-30)) 90 }

/-- The body of the per-pipe loop (lines 149-157): advance by `PIPE_SPEED`,
then the scoring check `!pipe.passed && pipe.x + PIPE_WIDTH < bird.x` at the
advanced position, written here in terms of the pre-move coordinate as
`p.x - PIPE_SPEED + PIPE_WIDTH`.  Returns the updated pipe and the score
increment (0 or 1) it produced. -/
def stepPipe (birdX : ℚ) (p : Pipe) : Pipe × ℤ :=
  if p.passed = false ∧ p.x - PIPE_SPEED + PIPE_WIDTH < birdX then
    ({ x := p.x - PIPE_SPEED, topHeight := p.topHeight, bottomY := p.bottomY,
       passed := true }, 1)
  else ({ p with x := p.x - PIPE_SPEED }, 0)

/-- The whole pipe loop (lines 149-163): every pipe is advanced and scored,
then the off-screen removal `pipe.x + PIPE_WIDTH < 0` is applied; reverse
iteration with `splice` preserves the relative order of the survivors, so a
map-then-filter is an exact model.  Second component: total score delta. -/
def updatePipes (birdX : ℚ) (pipes : List Pipe) : List Pipe × ℤ :=
  (((pipes.map (stepPipe birdX)).map Prod.fst).filter
      fun p => !decide (p.x + PIPE_WIDTH < 0),
   ((pipes.map (stepPipe birdX)).map Prod.snd).sum)

/-- Pipe spawning (lines 166-168): push a fresh pipe when the sequence is
empty or the most recent pipe has moved past `CANVAS_WIDTH - 300`. -/
def spawnIfNeeded (r : ℚ) (pipes : List Pipe) : List Pipe :=
  match pipes.getLast? with
  | none => pipes ++ [generatePipe r]
  | some lastPipe =>
      if lastPipe.x < CANVAS_WIDTH - 300 then pipes ++ [generatePipe r]
      else pipes

/-- The `gameState === 'playing'` block of `gameLoop` (lines 142-181).
`rPipe` is the random draw of a possibly spawned pipe, `rnd` the draws of the
collision burst.  The high-score comparison reads `m.score`, the value the
closure captured at the start of the tick — the same-tick `setScore`
increment is **not** included, exactly as in the source (line 176). -/
def stepPlaying (m : GameModel) (rPipe : ℚ) (rnd : ℕ → ℚ × ℚ) : GameModel :=
  let bird := integrateBird m.bird
  let pd := updatePipes bird.x m.pipes
  let pipes := spawnIfNeeded rPipe pd.1
  let score := m.score + pd.2
  if checkCollision bird pipes then
    { m with
      gameState := GameState.gameOver,
      bird := bird, pipes := pipes, score := score,
      particles := m.particles ++ addParticles bird.x bird.y 15 rnd,
      highScore := if m.score > m.highScore then m.score else m.highScore }
  else
    { m with bird := bird, pipes := pipes, score := score }

/-- The per-particle update (lines 186-189): position by the old velocity,
then particle gravity 0.3, then `life--`. -/
def stepParticle (p : Particle) : Particle :=
  { p with x := p.x + p.vx, y := p.y + p.vy, vy := p.vy + 3/10, life := p.life - 1 }

/-- The particle loop (lines 184-194): update every particle, then remove
those with `life <= 0`. -/
def stepParticles (ps : List Particle) : List Particle :=
  (ps.map stepParticle).filter fun p => !decide (p.life ≤ 0)

/-- The particle loop lifted to the whole model: it only touches the particle
sequence. -/
def particlePhase (m : GameModel) : GameModel :=
  { m with particles := stepParticles m.particles }

/-- One `gameLoop` tick (lines 133-194, the simulation part): the playing
block runs only in state `playing`, the particle loop runs unconditionally
afterwards.  The drawing code (lines 196-328) reads but never writes the
model and is not part of the state transition. -/
def gameLoopTick (m : GameModel) (rPipe : ℚ) (rnd : ℕ → ℚ × ℚ) : GameModel :=
  particlePhase (if m.gameState = GameState.playing then stepPlaying m rPipe rnd else m)

/-- Characters skipped by JavaScript `parseInt` before parsing. -/
def isJsSpace (c : Char) : Bool :=
  c = ' ' || c = '\t' || c = '\n' || c = '\r'

/-- Value of a leading decimal-digit run. -/
def digitsToNat (cs : List Char) : ℕ :=
  cs.foldl (fun acc c => acc * 10 + (c.toNat - 48)) 0

/-- JavaScript `parseInt(s)` on a decimal string: skip whitespace, optional
sign, longest leading digit run; `none` models the `NaN` result when no digit
is found.  (Radix prefixes like `0x` are not modelled; they cannot occur in
the cases the component stores, and do not affect the claims.) -/
def jsParseInt (s : String) : Option ℤ :=
  let cs := s.data.dropWhile isJsSpace
  let sc : ℤ × List Char :=
    match cs with
    | '-' :: t => (-1, t)
    | '+' :: t => (1, t)
    | _ => (1, cs)
  let ds := sc.2.takeWhile fun c => c.isDigit
  if ds.isEmpty then none
  else some (sc.1 * (digitsToNat ds : ℤ))

/-- The `highScore` initializer (lines 39-42):
`saved ? parseInt(saved) : 0`.  `saved` is `none` when the key is absent; the
empty string is falsy in JavaScript, so it also yields 0; otherwise the value
is `parseInt(saved)`, which is `NaN` (`none`) on a string with no leading
digits. -/
def initialHighScore (saved : Option String) : Option ℤ :=
  match saved with
  | none => some 0
  | some s => if s = "" then some 0 else jsParseInt s

/-- C1: `checkCollision` returns collision exactly when the bird's lower edge
reaches the ground line (`y + 15 ≥ 550`), or its upper edge reaches the
ceiling (`y - 15 ≤ 0`), or some pipe whose horizontal span strictly overlaps
the bird's (`bird.x + 15 > pipe.x` and `bird.x - 15 < pipe.x + 80`) has the
bird's vertical span not strictly inside the gap (`bird.y - 15 < gapTop` or
`bird.y + 15 > gapBottom`); in particular a bird clear of ground and ceiling
and inside the gap of every overlapping pipe yields `false`.  The predicate
is a pure function of its arguments. -/
theorem checkCollision_iff (bird : Bird) (pipes : List Pipe) :
    checkCollision bird pipes = true ↔
      (bird.y + 15 ≥ 550 ∨ bird.y - 15 ≤ 0 ∨
        ∃ pipe ∈ pipes,
          (bird.x + 15 > pipe.x ∧ bird.x - 15 < pipe.x + 80) ∧
          (bird.y - 15 < pipe.topHeight ∨ bird.y + 15 > pipe.bottomY)) := by
  have h15 : BIRD_SIZE / 2 = 15 := by norm_num [BIRD_SIZE]
  have h550 : CANVAS_HEIGHT - 50 = 550 := by norm_num [CANVAS_HEIGHT]
  unfold checkCollision
  rw [h15, h550]
  split_ifs with h1 h2
  · simp only [true_iff]
    exact Or.inl h1
  · simp only [true_iff]
    exact Or.inr (Or.inl h2)
  · rw [List.any_eq_true]
    constructor
    · rintro ⟨pipe, hmem, hp⟩
      rw [decide_eq_true_iff] at hp
      exact Or.inr (Or.inr ⟨pipe, hmem, ⟨hp.1, by simpa [PIPE_WIDTH] using hp.2.1⟩, hp.2.2⟩)
    · rintro (h | h | ⟨pipe, hmem, ⟨ha, hb⟩, hc⟩)
      · exact absurd h h1
      · exact absurd h h2
      · exact ⟨pipe, hmem, by
          rw [decide_eq_true_iff]
          exact ⟨ha, by simpa [PIPE_WIDTH] using hb, hc⟩⟩

/-- The score increment of one pipe, as an `if` on the advanced position. -/
lemma stepPipe_snd_eq (birdX : ℚ) (p : Pipe) :
    (stepPipe birdX p).2 =
      if p.passed = false ∧ p.x - PIPE_SPEED + PIPE_WIDTH < birdX then 1 else 0 := by
  unfold stepPipe
  split_ifs <;> rfl

/-- The total score delta of one tick counts, over all pipes (the removal
filter not yet applied), those not yet passed whose advanced trailing edge is
left of the bird. -/
lemma updatePipes_snd (birdX : ℚ) (pipes : List Pipe) :
    (updatePipes birdX pipes).2 =
      ((pipes.filter fun p =>
          !p.passed && decide (p.x - PIPE_SPEED + PIPE_WIDTH < birdX)).length : ℤ) := by
  induction pipes with
  | nil => simp [updatePipes]
  | cons hd tl ih =>
      simp only [updatePipes, List.map_cons, List.sum_cons] at ih ⊢
      rw [stepPipe_snd_eq, List.filter_cons]
      by_cases h : hd.passed = false ∧ hd.x - PIPE_SPEED + PIPE_WIDTH < birdX
      · have hb : (!hd.passed && decide (hd.x - PIPE_SPEED + PIPE_WIDTH < birdX)) = true := by
          simp [h.1, h.2]
        rw [if_pos h, hb, if_pos rfl, List.length_cons, ih]
        push_cast
        ring
      · have hb : (!hd.passed && decide (hd.x - PIPE_SPEED + PIPE_WIDTH < birdX)) = false := by
          cases hp : hd.passed with
          | true => simp
          | false =>
              have hx : ¬ hd.x - PIPE_SPEED + PIPE_WIDTH < birdX := fun hc => h ⟨hp, hc⟩
              simp [hx]
        rw [if_neg h, hb, ih]
        simp

/-- Witness for C1: a bird at the playfield centre with no pipes does not
collide. -/
theorem checkCollision_iff_witness :
    checkCollision { x := 150, y := 300, velocity := 0, rotation := 0 } [] = false := by
  have h := checkCollision_iff { x := 150, y := 300, velocity := 0, rotation := 0 } []
  rw [Bool.eq_false_iff]
  intro hc
  rcases h.mp hc with h1 | h1 | ⟨p, hp, _⟩
  · norm_num at h1
  · norm_num at h1
  · exact absurd hp (List.not_mem_nil p)

/-- C2: on a playing tick, the score delta produced by the pipe loop equals
the number of pipes with `passed = false` whose trailing edge `x + 80`,
after this tick's advance by 3, is strictly left of the bird's `x` — counted
before the off-screen removal filter, so a pipe removed this tick is still
scored at the same per-tick position; a not-yet-passed pipe whose advanced
trailing edge crosses the bird yields increment exactly 1 and its flag is set;
a pipe already flagged yields 0 and stays flagged (at most one increment per
pipe lifetime); a not-yet-passed pipe that has not crossed yields 0 and stays
unflagged; and the playing tick sets the run's score to exactly the old score
plus that delta. -/
theorem scoring_per_tick (birdX : ℚ) (pipes : List Pipe) :
    ((updatePipes birdX pipes).2 =
      ((pipes.filter fun p => !p.passed && decide (p.x - 3 + 80 < birdX)).length : ℤ)) ∧
    (∀ p : Pipe, p.passed = false → p.x - 3 + 80 < birdX →
      (stepPipe birdX p).2 = 1 ∧ ((stepPipe birdX p).1).passed = true) ∧
    (∀ p : Pipe, p.passed = true →
      (stepPipe birdX p).2 = 0 ∧ ((stepPipe birdX p).1).passed = true) ∧
    (∀ p : Pipe, p.passed = false → ¬ (p.x - 3 + 80 < birdX) →
      (stepPipe birdX p).2 = 0 ∧ ((stepPipe birdX p).1).passed = false) ∧
    (∀ (m : GameModel) (rPipe : ℚ) (rnd : ℕ → ℚ × ℚ),
      (stepPlaying m rPipe rnd).score =
        m.score + (updatePipes (integrateBird m.bird).x m.pipes).2) := by
  have hsw : ∀ p : Pipe, p.x - PIPE_SPEED + PIPE_WIDTH = p.x - 3 + 80 := by
    intro p; norm_num [PIPE_SPEED, PIPE_WIDTH]
  refine ⟨?_, ?_, ?_, ?_, ?_⟩
  · exact updatePipes_snd birdX pipes
  · intro p hp hx
    unfold stepPipe
    rw [if_pos ⟨hp, by rw [hsw]; exact hx⟩]
    exact ⟨rfl, rfl⟩
  · intro p hp
    unfold stepPipe
    rw [if_neg (fun hc => by rw [hp] at hc; exact Bool.true_eq_false.mp hc.1)]
    exact ⟨rfl, hp⟩
  · intro p hp hx
    unfold stepPipe
    rw [if_neg (fun hc => hx (by rw [hsw] at hc; exact hc.2))]
    exact ⟨rfl, hp⟩
  · intro m rPipe rnd
    cases hcol : checkCollision (integrateBird m.bird)
        (spawnIfNeeded rPipe (updatePipes (integrateBird m.bird).x m.pipes).1) with
    | true => simp [stepPlaying, hcol]
    | false => simp [stepPlaying, hcol]

/-- A pipe used in several concrete evaluations below: not yet passed, at
`x = 72` before the tick, so its advanced trailing edge is `149 < 150`. -/
def stalePipe : Pipe := { x := 72, topHeight := 50, bottomY := 250, passed := false }

/-- Witness for C2 at `birdX = 150` and the pipe `stalePipe`. -/
theorem scoring_per_tick_witness :
    (stepPipe 150 stalePipe).2 = 1 ∧ ((stepPipe 150 stalePipe).1).passed = true :=
  (scoring_per_tick 150 [stalePipe]).2.1 stalePipe rfl (by norm_num [stalePipe])

/-- C3 (amended): a pipe survives the tick's removal exactly when it is the
advanced image of a pipe of the input sequence and its trailing edge
`x + 80` is not strictly left of 0 — so removal happens on the tick the
trailing edge first becomes negative, and an obstacle at `x = -1` with width
80 (trailing edge 79) is still present, not absent. -/
theorem pipe_removed_iff (birdX : ℚ) (pipes : List Pipe) (q : Pipe) :
    q ∈ (updatePipes birdX pipes).1 ↔
      ((∃ p ∈ pipes, (stepPipe birdX p).1 = q) ∧ ¬ q.x + 80 < 0) := by
  have hw : PIPE_WIDTH = (80:ℚ) := by norm_num [PIPE_WIDTH]
  unfold updatePipes
  rw [List.mem_filter]
  simp only [List.map_map, List.mem_map, Function.comp_apply, Bool.not_eq_true',
    decide_eq_false_iff_not, hw]

/-- Witness for C3: via the removal characterization, the advanced image of
a pipe at `x = 2` (trailing edge 79 after the advance) is still a member of
the post-tick sequence. -/
theorem pipe_removed_iff_witness :
    ({ x := -1, topHeight := 50, bottomY := 250, passed := true } : Pipe) ∈
      (updatePipes 150 [{ x := 2, topHeight := 50, bottomY := 250, passed := true }]).1 :=
  (pipe_removed_iff 150 [{ x := 2, topHeight := 50, bottomY := 250, passed := true }]
      { x := -1, topHeight := 50, bottomY := 250, passed := true }).mpr
    ⟨⟨{ x := 2, topHeight := 50, bottomY := 250, passed := true },
      List.mem_singleton.mpr rfl,
      by norm_num [stepPipe, PIPE_SPEED, PIPE_WIDTH]⟩,
     by norm_num⟩

/-- C3 counterexample: a pipe at `x = 2` (already passed) advances to
`x = -1`; its trailing edge is 79, so the claim's "an obstacle at x = -1 with
width = 80 must already be absent" is false — the obstacle is still in the
sequence after the tick. -/
theorem pipe_at_minus_one_still_present :
    (updatePipes 150 [{ x := 2, topHeight := 50, bottomY := 250, passed := true }]).1 =
      [{ x := -1, topHeight := 50, bottomY := 250, passed := true }] := by
  norm_num [updatePipes, stepPipe, PIPE_SPEED, PIPE_WIDTH]

/-- C4: an activate event in state `menu` or `gameOver` yields state
`playing` with the bird reset to `(150, 300)` (`playfieldHeight/2 = 300`)
with zero velocity and zero rotation, empty pipe and particle sequences, and
score 0 (the high score is kept); in particular the resulting state is
neither `menu` nor `gameOver`, so no activate event sends `menu` to
`gameOver` or `gameOver` to `menu`. -/
theorem activate_resets (m : GameModel) (rnd : ℕ → ℚ × ℚ)
    (h : m.gameState = GameState.menu ∨ m.gameState = GameState.gameOver) :
    jump m rnd =
      { gameState := GameState.playing, score := 0, highScore := m.highScore,
        bird := { x := 150, y := 300, velocity := 0, rotation := 0 },
        pipes := [], particles := [] } ∧
    (jump m rnd).gameState ≠ GameState.gameOver ∧
    (jump m rnd).gameState ≠ GameState.menu := by
  have hbird : initialBird = { x := 150, y := 300, velocity := 0, rotation := 0 } := by
    norm_num [initialBird, CANVAS_HEIGHT]
  obtain ⟨gs, sc, hs, b, ps, prt⟩ := m
  rcases h with h | h <;>
    · simp only [GameModel.gameState] at h
      subst h
      refine ⟨?_, by simp [jump, resetGame], by simp [jump, resetGame]⟩
      simp [jump, resetGame, hbird]

/-- Witness for C4 at a concrete `menu` state. -/
theorem activate_resets_witness :
    jump { gameState := GameState.menu, score := 7, highScore := 9,
           bird := { x := 1, y := 2, velocity := 3, rotation := 4 },
           pipes := [stalePipe], particles := [] } (fun _ => (0, 0)) =
      { gameState := GameState.playing, score := 0, highScore := 9,
        bird := { x := 150, y := 300, velocity := 0, rotation := 0 },
        pipes := [], particles := [] } :=
  (activate_resets _ _ (Or.inl rfl)).1

/-- C5: an activate event in state `playing` keeps the state `playing`, sets
the bird's velocity to exactly the jump constant `-12` whatever its previous
value, leaves the bird's position (and the score, pipes and high score)
unchanged, and appends exactly 5 particles spawned at the bird's trailing
lower edge `(x - 15, y + 15)`. -/
theorem activate_while_playing (m : GameModel) (rnd : ℕ → ℚ × ℚ)
    (h : m.gameState = GameState.playing) :
    (jump m rnd).gameState = GameState.playing ∧
    (jump m rnd).bird.velocity = -12 ∧
    (jump m rnd).bird.x = m.bird.x ∧
    (jump m rnd).bird.y = m.bird.y ∧
    (jump m rnd).particles =
      m.particles ++ addParticles (m.bird.x - 15) (m.bird.y + 15) 5 rnd ∧
    (jump m rnd).particles.length = m.particles.length + 5 ∧
    (jump m rnd).score = m.score ∧
    (jump m rnd).pipes = m.pipes ∧
    (jump m rnd).highScore = m.highScore := by
  have h15 : BIRD_SIZE / 2 = (15:ℚ) := by norm_num [BIRD_SIZE]
  obtain ⟨gs, sc, hs, b, ps, prt⟩ := m
  simp only [GameModel.gameState] at h
  subst h
  refine ⟨rfl, ?_, rfl, rfl, ?_, ?_, rfl, rfl, rfl⟩
  · simp [jump, JUMP_FORCE]
  · simp [jump, h15]
  · simp [jump, addParticles]

/-- Witness for C5 at a concrete `playing` state with positive prior
velocity. -/
theorem activate_while_playing_witness :
    (jump { gameState := GameState.playing, score := 2, highScore := 9,
            bird := { x := 150, y := 300, velocity := 37, rotation := 4 },
            pipes := [], particles := [] } (fun _ => (0, 0))).bird.velocity = -12 :=
  (activate_while_playing _ _ rfl).2.1

/-- C7: for every random draw `r` in `[0,1)` the generated pipe sits at the
right edge `x = 800`, is not yet passed, has `bottomY = topHeight + 200`, its
`topHeight` is the uniform image `r * 300 + 50` of the draw and lies in
`[50, 350]` (`minGapTop = 50`, `maxGapTop = 600 - 200 - 50 = 350`), and hence
satisfies the invariant `0 < topHeight` and `bottomY < 550`
(`playfieldHeight - groundHeight`). -/
theorem generatePipe_spec (r : ℚ) (h0 : 0 ≤ r) (h1 : r < 1) :
    (generatePipe r).x = 800 ∧
    (generatePipe r).passed = false ∧
    (generatePipe r).topHeight = r * 300 + 50 ∧
    (generatePipe r).bottomY = (generatePipe r).topHeight + 200 ∧
    50 ≤ (generatePipe r).topHeight ∧
    (generatePipe r).topHeight ≤ 350 ∧
    0 < (generatePipe r).topHeight ∧
    (generatePipe r).bottomY < 550 := by
  have ht : (generatePipe r).topHeight = r * 300 + 50 := by
    show r * (CANVAS_HEIGHT - PIPE_GAP - 50 - 50) + 50 = r * 300 + 50
    norm_num [CANVAS_HEIGHT, PIPE_GAP]
  have hb : (generatePipe r).bottomY = (generatePipe r).topHeight + 200 := by
    show (generatePipe r).topHeight + PIPE_GAP = (generatePipe r).topHeight + 200
    norm_num [PIPE_GAP]
  refine ⟨by norm_num [generatePipe, CANVAS_WIDTH], rfl, ht, hb, ?_, ?_, ?_, ?_⟩
  · rw [ht]; nlinarith
  · rw [ht]; nlinarith
  · rw [ht]; nlinarith
  · rw [hb, ht]; nlinarith

/-- Witness for C7 at `r = 1/2`. -/
theorem generatePipe_spec_witness :
    (generatePipe (1/2)).x = 800 ∧ (generatePipe (1/2)).bottomY < 550 :=
  ⟨(generatePipe_spec (1/2) (by norm_num) (by norm_num)).1,
   (generatePipe_spec (1/2) (by norm_num) (by norm_num)).2.2.2.2.2.2.2⟩

/-- C8 (amended): steps 1-6 of the simulation (bird integration, pipe
advance, scoring, removal, spawning, collision) run only while the state is
`playing`: a tick in `menu` or `gameOver` leaves the bird, the pipe
sequence, the score, the high score and the game state unchanged — but the
particle advance runs unconditionally, so the tick still replaces the
particle sequence by its stepped-and-filtered image. -/
theorem tick_nonplaying (m : GameModel) (rPipe : ℚ) (rnd : ℕ → ℚ × ℚ)
    (h : m.gameState ≠ GameState.playing) :
    gameLoopTick m rPipe rnd = { m with particles := stepParticles m.particles } := by
  unfold gameLoopTick particlePhase
  rw [if_neg h]

/-- A `gameOver` state with one live particle, used for C8. -/
def overState : GameModel :=
  { gameState := GameState.gameOver, score := 3, highScore := 5,
    bird := initialBird, pipes := [],
    particles := [{ x := 100, y := 100, vx := 1, vy := 2, life := 10, maxLife := 30 }] }

/-- Witness for C8 at `overState`. -/
theorem tick_nonplaying_witness :
    gameLoopTick overState 0 (fun _ => (0, 0)) =
      { overState with particles := stepParticles overState.particles } :=
  tick_nonplaying overState 0 (fun _ => (0, 0)) (by intro h; cases h)

/-- C8 counterexample: on a scheduled tick in state `gameOver` the particle
sequence is **not** left unchanged — the particle of `overState` has its
life decremented from 10 to 9 (and moves), so the claim that the particle
sequence is untouched outside `playing` is false. -/
theorem tick_gameOver_changes_particles :
    (gameLoopTick overState 0 (fun _ => (0, 0))).particles.map Particle.life = [9] ∧
    overState.particles.map Particle.life = [10] ∧
    (gameLoopTick overState 0 (fun _ => (0, 0))).particles ≠ overState.particles := by
  have h1 : (gameLoopTick overState 0 (fun _ => (0, 0))).particles.map Particle.life = [9] := by
    simp [gameLoopTick, particlePhase, overState, stepParticles, stepParticle]
  have h2 : overState.particles.map Particle.life = [10] := by
    simp [overState]
  refine ⟨h1, h2, fun hc => ?_⟩
  rw [hc, h2] at h1
  exact absurd h1 (by decide)

/-- C10: after a particle tick, provided every incoming particle has
`life ≤ maxLife` (true of all spawned particles, which start at
`life = maxLife = 30`, second conjunct), every surviving particle has
`1 ≤ life ≤ maxLife` — a particle is removed on the very tick its life
reaches 0 — so the rendered opacity `life / maxLife` is strictly positive
and at most 1; and the particle phase touches nothing but the particle
sequence: bird, pipes, score, game state and high score are all preserved. -/
theorem particle_tick_invariant (ps : List Particle)
    (h : ∀ p ∈ ps, p.life ≤ p.maxLife) :
    (∀ q ∈ stepParticles ps,
      1 ≤ q.life ∧ q.life ≤ q.maxLife ∧
      0 < (q.life : ℚ) / (q.maxLife : ℚ) ∧ (q.life : ℚ) / (q.maxLife : ℚ) ≤ 1) ∧
    (∀ (x y : ℚ) (n : ℕ) (rnd : ℕ → ℚ × ℚ), ∀ q ∈ addParticles x y n rnd,
      q.life = 30 ∧ q.maxLife = 30) ∧
    (∀ mm : GameModel,
      (particlePhase mm).bird = mm.bird ∧ (particlePhase mm).pipes = mm.pipes ∧
      (particlePhase mm).score = mm.score ∧
      (particlePhase mm).gameState = mm.gameState ∧
      (particlePhase mm).highScore = mm.highScore) := by
  refine ⟨?_, ?_, fun mm => ⟨rfl, rfl, rfl, rfl, rfl⟩⟩
  · intro q hq
    unfold stepParticles at hq
    rw [List.mem_filter] at hq
    obtain ⟨hq1, hq2⟩ := hq
    rw [List.mem_map] at hq1
    obtain ⟨p, hp, rfl⟩ := hq1
    rw [Bool.not_eq_true', decide_eq_false_iff_not] at hq2
    have hlife1 : 1 ≤ (stepParticle p).life := by
      have : ¬ (stepParticle p).life ≤ 0 := hq2
      omega
    have hmax : (stepParticle p).maxLife = p.maxLife := rfl
    have hlifele : (stepParticle p).life ≤ (stepParticle p).maxLife := by
      have hpl : (stepParticle p).life = p.life - 1 := rfl
      rw [hpl, hmax]
      have := h p hp
      omega
    have hmaxpos : (0:ℚ) < ((stepParticle p).maxLife : ℚ) := by
      have : (1:ℤ) ≤ (stepParticle p).maxLife := le_trans hlife1 hlifele
      exact_mod_cast lt_of_lt_of_le Int.zero_lt_one this
    refine ⟨hlife1, hlifele, ?_, ?_⟩
    · apply div_pos _ hmaxpos
      exact_mod_cast lt_of_lt_of_le Int.zero_lt_one hlife1
    · rw [div_le_one hmaxpos]
      exact_mod_cast hlifele
  · intro x y n rnd q hq
    unfold addParticles at hq
    rw [List.mem_map] at hq
    obtain ⟨i, _, rfl⟩ := hq
    exact ⟨rfl, rfl⟩

/-- Witness for C10 at a one-particle list with `life = maxLife = 30`. -/
theorem particle_tick_invariant_witness :
    1 ≤ (stepParticle { x := 0, y := 0, vx := 0, vy := 0, life := 30, maxLife := 30 }).life ∧
    (stepParticle { x := 0, y := 0, vx := 0, vy := 0, life := 30, maxLife := 30 }).life ≤
      (stepParticle { x := 0, y := 0, vx := 0, vy := 0, life := 30, maxLife := 30 }).maxLife ∧
    0 < ((stepParticle { x := 0, y := 0, vx := 0, vy := 0, life := 30, maxLife := 30 }).life : ℚ) /
        ((stepParticle { x := 0, y := 0, vx := 0, vy := 0, life := 30, maxLife := 30 }).maxLife : ℚ) ∧
    ((stepParticle { x := 0, y := 0, vx := 0, vy := 0, life := 30, maxLife := 30 }).life : ℚ) /
        ((stepParticle { x := 0, y := 0, vx := 0, vy := 0, life := 30, maxLife := 30 }).maxLife : ℚ) ≤ 1 :=
  (particle_tick_invariant
      [{ x := 0, y := 0, vx := 0, vy := 0, life := 30, maxLife := 30 }]
      (by intro p hp; rw [List.mem_singleton] at hp; subst hp; exact le_refl _)).1
    _ (by
        unfold stepParticles
        rw [List.mem_filter]
        exact ⟨List.mem_map_of_mem _ (List.mem_singleton.mpr rfl), by decide⟩)

/-- A playing state in which the bird both passes a pipe and collides with
the ground on the same tick: the score is 0 (equal to the stored high score),
the pipe at `x = 72` advances to 69 so its trailing edge 149 crosses the
bird's `x = 150`, and the bird at `y = 550` falls to `550.6`, reaching the
ground line.  Used for C6. -/
def staleState : GameModel :=
  { gameState := GameState.playing, score := 0, highScore := 0,
    bird := { x := 150, y := 550, velocity := 0, rotation := 0 },
    pipes := [stalePipe], particles := [] }

/-- C6 failing input: on the tick of `staleState` the bird scores (+1, so the
run's final score is 1) and collides; the claim requires the high score to
become the current score including the same-tick increment, i.e. 1, but the
code compares the closure-captured pre-tick score 0 against the stored high
score 0 (line 176) and leaves the high score at 0 — strictly below the
final score of the run. -/
theorem highScore_misses_same_tick_increment :
    (gameLoopTick staleState 0 (fun _ => (0, 0))).gameState = GameState.gameOver ∧
    (gameLoopTick staleState 0 (fun _ => (0, 0))).score = 1 ∧
    (gameLoopTick staleState 0 (fun _ => (0, 0))).highScore = 0 := by
  refine ⟨?_, ?_, ?_⟩ <;>
    norm_num [gameLoopTick, particlePhase, staleState, stepPlaying, integrateBird,
      updatePipes, stepPipe, stalePipe, spawnIfNeeded, generatePipe, checkCollision,
      GRAVITY, BIRD_SIZE, CANVAS_HEIGHT, CANVAS_WIDTH, PIPE_SPEED, PIPE_WIDTH, PIPE_GAP]

/-- C9 failing input: the `highScore` initializer yields 0 for an absent
value and the stored integer for a decimal string, but for a stored value
with no leading digit (`"abc"`) `parseInt` yields `NaN` (modelled `none`),
not the 0 the claim requires. -/
theorem initialHighScore_eval :
    initialHighScore none = some 0 ∧
    initialHighScore (some "17") = some 17 ∧
    initialHighScore (some "abc") = none ∧
    initialHighScore (some "abc") ≠ some 0 := by
  refine ⟨rfl, by decide, by decide, by decide⟩

end Flazzy
